import Mathlib

/-!
Shallow embedding of `scripts/anime_query.py` and `scripts/visualization.py`.

The query client is modelled over a JSON value type; the HTTP layer
(`requests.get`) is abstracted as a transport function from a request and the
header list to a response, exactly as the code hands it a URL and headers.
Python subscripting, iteration and `str.join` are modelled with their exception
behaviour (`KeyError`, `IndexError`, `TypeError`) made explicit in `Except`, so
that the `try/except (KeyError, IndexError, TypeError)` blocks of the source can
be embedded faithfully and "the call raises" is expressible as an `.error`
escaping a method.
-/

namespace AnimeQuery

/-- JSON values, the possible results of `response.json()`. -/
inductive Json where
  | null
  | bool (b : Bool)
  | num (n : Int)
  | str (s : String)
  | arr (elems : List Json)
  | obj (fields : List (String × Json))
deriving Repr

/-- The Python exception classes that the modelled operations can raise.
`other` stands for any exception class outside the three that the source
catches. -/
inductive PyExc where
  | keyError
  | indexError
  | typeError
  | other
deriving Repr, DecidableEq

/-- The exception classes caught by the source:
`except (KeyError, IndexError, TypeError)`. -/
def isCaught : PyExc → Bool
  | .keyError => true
  | .indexError => true
  | .typeError => true
  | .other => false

/-- Python subscript `j[k]` with a string key `k`: field lookup on a dict
(`KeyError` when absent), `TypeError` on every other JSON value. -/
def getItemStr : Json → String → Except PyExc Json
  | .obj fields, k =>
      match fields.lookup k with
      | some v => .ok v
      | none => .error .keyError
  | _, _ => .error .typeError

/-- Python subscript `j[i]` with an integer index `i`: list indexing
(`IndexError` out of range), character indexing on a string, `KeyError` on a
dict whose keys are strings, `TypeError` on the remaining JSON values. -/
def getItemIdx : Json → Nat → Except PyExc Json
  | .arr elems, i =>
      match elems[i]? with
      | some v => .ok v
      | none => .error .indexError
  | .str s, i =>
      match s.toList[i]? with
      | some c => .ok (.str (String.singleton c))
      | none => .error .indexError
  | .obj _, _ => .error .keyError
  | _, _ => .error .typeError

/-- `response.json()['data'][0]['node']['id']`, the extraction performed inside
the `try` block of `get_anime_id`. -/
def extract_id (body : Json) : Except PyExc Json :=
  match getItemStr body "data" with
  | .error e => .error e
  | .ok d =>
    match getItemIdx d 0 with
    | .error e => .error e
    | .ok d0 =>
      match getItemStr d0 "node" with
      | .error e => .error e
      | .ok node => getItemStr node "id"

/-- `response.json()['data'][0]['node']['title']`, the extraction performed
inside the `try` block of `get_anime_name`. -/
def extract_title (body : Json) : Except PyExc Json :=
  match getItemStr body "data" with
  | .error e => .error e
  | .ok d =>
    match getItemIdx d 0 with
    | .error e => .error e
    | .ok d0 =>
      match getItemStr d0 "node" with
      | .error e => .error e
      | .ok node => getItemStr node "title"

/-- Python iteration `for x in j`: lists yield their elements, strings yield
one-character strings, dicts yield their keys; other values raise `TypeError`. -/
def pyIterate : Json → Except PyExc (List Json)
  | .arr elems => .ok elems
  | .str s => .ok (s.toList.map fun c => .str (String.singleton c))
  | .obj fields => .ok (fields.map fun p => .str p.1)
  | _ => .error .typeError

/-- The list comprehension `[genre['name'] for genre in items]`: each element is
subscripted with the string key `name`, left to right, the first exception
escaping. -/
def getNames : List Json → Except PyExc (List Json)
  | [] => .ok []
  | g :: rest =>
    match getItemStr g "name" with
    | .error e => .error e
    | .ok v =>
      match getNames rest with
      | .error e => .error e
      | .ok vs => .ok (v :: vs)

/-- The element check of `', '.join(xs)`: every element must be a string,
otherwise `TypeError` is raised at the first offender. -/
def strJoinCheck : List Json → Except PyExc (List String)
  | [] => .ok []
  | .str s :: rest =>
    match strJoinCheck rest with
    | .error e => .error e
    | .ok ss => .ok (s :: ss)
  | _ :: _ => .error .typeError

/-- `', '.join([genre['name'] for genre in response.json()['genres']])`, the
extraction performed inside the `try` block of `get_anime_genres`. -/
def extract_genres (body : Json) : Except PyExc String :=
  match getItemStr body "genres" with
  | .error e => .error e
  | .ok g =>
    match pyIterate g with
    | .error e => .error e
    | .ok items =>
      match getNames items with
      | .error e => .error e
      | .ok names =>
        match strJoinCheck names with
        | .error e => .error e
        | .ok strs => .ok (String.intercalate ", " strs)

/-- An outbound HTTP GET issued by the client, identified by its endpoint
shape: `/anime?q={name}&limit=1` (search) or `/anime/{anime_id}?fields=genres`
(detail, carrying the interpolated identifier value). -/
inductive Request where
  | search (name : String)
  | detail (animeId : Json)

/-- A transport-level response: status code and decoded JSON body. -/
structure Response where
  status_code : Nat
  body : Json

/-- `requests.get`, abstracted: a function from the request and the header list
to the response. Transport faults are outside this model; the spec states they
propagate uncaught. -/
def Transport := Request → List (String × String) → Response

/-- The client: its only attribute is the header dict set at construction. -/
structure AnimeDetailsQuery where
  headers : List (String × String)

/-- `__init__`: `self.headers = {'X-MAL-CLIENT-ID': client_id}`. -/
def AnimeDetailsQuery.init (client_id : String) : AnimeDetailsQuery :=
  ⟨[("X-MAL-CLIENT-ID", client_id)]⟩

/-- Outcome of one method call: the returned value (`.ok`) or an escaped
exception (`.error`), the requests issued in order, and the state of `self`
after the call. -/
structure Call (α : Type) where
  result : Except PyExc α
  requests : List Request
  self : AnimeDetailsQuery

/-- `get_anime_id`: one search request; on status 200 extract
`data[0].node.id`, converting the three caught exception classes to `None`;
on any other status fall off the end of the function, returning `None`. -/
def AnimeDetailsQuery.get_anime_id (q : AnimeDetailsQuery) (t : Transport)
    (name : String) : Call (Option Json) :=
  let response := t (.search name) q.headers
  if response.status_code = 200 then
    match extract_id response.body with
    | .ok v => ⟨.ok (some v), [.search name], q⟩
    | .error e =>
      if isCaught e then ⟨.ok none, [.search name], q⟩
      else ⟨.error e, [.search name], q⟩
  else ⟨.ok none, [.search name], q⟩

/-- `get_anime_name`: identical request shape, extracting
`data[0].node.title` instead. -/
def AnimeDetailsQuery.get_anime_name (q : AnimeDetailsQuery) (t : Transport)
    (name : String) : Call (Option Json) :=
  let response := t (.search name) q.headers
  if response.status_code = 200 then
    match extract_title response.body with
    | .ok v => ⟨.ok (some v), [.search name], q⟩
    | .error e =>
      if isCaught e then ⟨.ok none, [.search name], q⟩
      else ⟨.error e, [.search name], q⟩
  else ⟨.ok none, [.search name], q⟩

/-- `get_anime_genres`: resolve the identifier via `get_anime_id`; if it is
`None`, return it at once (no second request); otherwise issue the detail
request and on status 200 join the genre names, converting the three caught
exception classes to `None`; on any other status return `None`. -/
def AnimeDetailsQuery.get_anime_genres (q : AnimeDetailsQuery) (t : Transport)
    (name : String) : Call (Option String) :=
  let c := q.get_anime_id t name
  match c.result with
  | .error e => ⟨.error e, c.requests, c.self⟩
  | .ok none => ⟨.ok none, c.requests, c.self⟩
  | .ok (some animeId) =>
    let response := t (.detail animeId) c.self.headers
    if response.status_code = 200 then
      match extract_genres response.body with
      | .ok s => ⟨.ok (some s), c.requests ++ [.detail animeId], c.self⟩
      | .error e =>
        if isCaught e then ⟨.ok none, c.requests ++ [.detail animeId], c.self⟩
        else ⟨.error e, c.requests ++ [.detail animeId], c.self⟩
    else ⟨.ok none, c.requests ++ [.detail animeId], c.self⟩

/-- A mocked transport answering every request with status 404. -/
def t404 : Transport := fun _ _ => ⟨404, .null⟩

/-- A mocked transport answering status 200 with a JSON body of the wrong
shape (`null`). -/
def tMalformed : Transport := fun _ _ => ⟨200, .null⟩

/-- A well-formed search payload with one result. -/
def goodSearchBody : Json :=
  .obj [("data", .arr [.obj [("node",
    .obj [("id", .num 30), ("title", .str "Neon Genesis Evangelion")])]])]

/-- A well-formed detail payload with three genres. -/
def goodDetailBody : Json :=
  .obj [("genres", .arr [.obj [("name", .str "Action")],
    .obj [("name", .str "Adventure")], .obj [("name", .str "Comedy")]])]

/-- A mocked transport whose search succeeds but whose detail payload has the
wrong shape. -/
def tOkSearchBadDetail : Transport := fun r _ =>
  match r with
  | .search _ => ⟨200, goodSearchBody⟩
  | .detail _ => ⟨200, .null⟩

/-- A mocked transport on which both endpoints answer well-formed payloads. -/
def tOkFull : Transport := fun r _ =>
  match r with
  | .search _ => ⟨200, goodSearchBody⟩
  | .detail _ => ⟨200, goodDetailBody⟩

/-- A mocked transport whose search succeeds with an empty result array. -/
def tEmptyData : Transport := fun _ _ => ⟨200, .obj [("data", .arr [])]⟩

/-- A mocked transport whose search succeeds and whose detail payload has an
empty genres list. -/
def tEmptyGenres : Transport := fun r _ =>
  match r with
  | .search _ => ⟨200, goodSearchBody⟩
  | .detail _ => ⟨200, .obj [("genres", .arr [])]⟩

end AnimeQuery

namespace Visualization

/-- `plot_donut_chart`: a column is a list of cells, a missing cell modelled as
`none` (`isna`). `sizes = [missing_count, filled_count]` with
`filled_count = len(df) - missing_count`; the missing slice comes first. -/
def donut_sizes {α : Type} (column : List (Option α)) : List Nat :=
  let missing_count := (column.filter fun x => x.isNone).length
  let filled_count := column.length - missing_count
  [missing_count, filled_count]

/-- The slice labels of `plot_donut_chart`, missing first. -/
def donut_labels : List String := ["Пропуски", "Заполненные значения"]

/-- `explode = (0.1, 0)`: the first (missing) slice is pulled out. -/
def donut_explode : List ℚ := [1/10, 0]

/-- The number of occurrences of `v` in the column. -/
def countVal (column : List String) (v : String) : Nat :=
  (column.filter fun x => x == v).length

/-- The distinct values of the column, in first-appearance order. -/
def distinctVals (column : List String) : List String :=
  column.foldl (fun acc x => if acc.contains x then acc else acc ++ [x]) []

/-- `column.value_counts().sort_values(ascending=False)`: the value-to-count
pairs of the column, sorted by descending count. -/
def value_counts (column : List String) : List (String × Nat) :=
  ((distinctVals column).map fun v => (v, countVal column v)).insertionSort
    fun p q => q.2 ≤ p.2

/-- The frequency table drawn by `plot_bar`: `type_counts.head(limit)` and,
when more distinct categories exist than `limit`, the synthetic `Other` bucket
holding `type_counts[limit:].sum()`, appended after the kept set. -/
def plot_bar_table (column : List String) (limit : Nat) : List (String × Nat) :=
  let type_counts := value_counts column
  let top_categories := type_counts.take limit
  if limit < type_counts.length then
    top_categories ++ [("Other", ((type_counts.drop limit).map Prod.snd).sum)]
  else top_categories

/-- The percentage written over each bar of `plot_bar`:
`(value / top_categories.sum()) * 100`. -/
def plot_bar_percents (column : List String) (limit : Nat) : List ℚ :=
  let tbl := plot_bar_table column limit
  let total : ℚ := ((tbl.map Prod.snd).sum : Nat)
  tbl.map fun p => (p.2 : ℚ) / total * 100

/-- The frequency table drawn by `plot_horizontal_bar`, computed by the same
lines as in `plot_bar`. -/
def plot_horizontal_bar_table (column : List String) (limit : Nat) :
    List (String × Nat) :=
  let type_counts := value_counts column
  let top_categories := type_counts.take limit
  if limit < type_counts.length then
    top_categories ++ [("Other", ((type_counts.drop limit).map Prod.snd).sum)]
  else top_categories

/-- The percentage written next to each bar of `plot_horizontal_bar`:
`(value / total_sum) * 100`. -/
def plot_horizontal_bar_percents (column : List String) (limit : Nat) : List ℚ :=
  let tbl := plot_horizontal_bar_table column limit
  let total : ℚ := ((tbl.map Prod.snd).sum : Nat)
  tbl.map fun p => (p.2 : ℚ) / total * 100

/-- The data of one dataframe column: numeric (a numeric dtype) or
non-numeric (object/string dtype). -/
inductive ColData where
  | numeric (xs : List ℚ)
  | nonNumeric (xs : List String)

/-- A named dataframe column. -/
structure Column where
  name : String
  data : ColData

/-- Whether the column has a numeric dtype. -/
def Column.isNumeric (c : Column) : Bool :=
  match c.data with
  | .numeric _ => true
  | .nonNumeric _ => false

/-- The numeric values of a column (empty for a non-numeric column, on which
the Pearson kernel is never invoked). -/
def Column.numericData (c : Column) : List ℚ :=
  match c.data with
  | .numeric xs => xs
  | .nonNumeric _ => []

/-- `data.corr()` with numeric-only behaviour: the numeric columns are
selected and their pairwise Pearson coefficients are arranged in a square
matrix. The floating-point Pearson kernel itself is abstracted as the
parameter `pearson`, exactly as the transport abstracts the network. -/
def corr (pearson : List ℚ → List ℚ → ℚ) (data : List Column) :
    List (List ℚ) :=
  let numericCols := data.filter Column.isNumeric
  numericCols.map fun ci =>
    numericCols.map fun cj => pearson ci.numericData cj.numericData

/-- The matrix `plot_correlation_matrix` computes (`correlation_matrix =
data.corr()`) and hands to the heatmap. -/
def plot_correlation_matrix_values (pearson : List ℚ → List ℚ → ℚ)
    (data : List Column) : List (List ℚ) :=
  corr pearson data

/-- A sample category column with value frequencies 50, 30, 20, 10, 5. -/
def sampleColumn : List String :=
  List.replicate 50 "a" ++ List.replicate 30 "b" ++ List.replicate 20 "c" ++
    List.replicate 10 "d" ++ List.replicate 5 "e"

/-- A sample column of 10 rows of which 3 are missing. -/
def sampleDonutColumn : List (Option Nat) :=
  [some 1, none, some 2, none, some 3, none, some 4, some 5, some 6, some 7]

/-- A sample dataset whose columns are all non-numeric. -/
def sampleNonNumeric : List Column :=
  [⟨"title", .nonNumeric ["x", "y"]⟩, ⟨"genre", .nonNumeric ["a"]⟩]

end Visualization

namespace AnimeQuery

/-! Lemmas: every exception the modelled extraction can raise belongs to the
caught classes `(KeyError, IndexError, TypeError)`. -/

theorem getItemStr_caught (j : Json) (k : String) (e : PyExc)
    (h : getItemStr j k = .error e) : isCaught e = true := by
  unfold getItemStr at h
  repeat' split at h
  all_goals first
    | (injection h with h2; subst h2; rfl)
    | injection h

theorem getItemIdx_caught (j : Json) (i : Nat) (e : PyExc)
    (h : getItemIdx j i = .error e) : isCaught e = true := by
  unfold getItemIdx at h
  repeat' split at h
  all_goals first
    | (injection h with h2; subst h2; rfl)
    | injection h

theorem pyIterate_caught (j : Json) (e : PyExc)
    (h : pyIterate j = .error e) : isCaught e = true := by
  unfold pyIterate at h
  repeat' split at h
  all_goals first
    | (injection h with h2; subst h2; rfl)
    | injection h

theorem getNames_caught (items : List Json) (e : PyExc)
    (h : getNames items = .error e) : isCaught e = true := by
  induction items with
  | nil => simp [getNames] at h
  | cons g rest ih =>
    unfold getNames at h
    split at h
    · rename_i e1 heq
      injection h with h2
      subst h2
      exact getItemStr_caught _ _ _ heq
    · rename_i v heq
      split at h
      · rename_i e1 heq2
        injection h with h2
        subst h2
        exact ih heq2
      · rename_i vs heq2
        exact absurd h (by simp)

theorem strJoinCheck_caught (items : List Json) (e : PyExc)
    (h : strJoinCheck items = .error e) : isCaught e = true := by
  induction items with
  | nil => simp [strJoinCheck] at h
  | cons g rest ih =>
    cases g with
    | str s =>
      unfold strJoinCheck at h
      split at h
      · rename_i e1 heq
        injection h with h2
        subst h2
        exact ih heq
      · rename_i ss heq
        exact absurd h (by simp)
    | null => unfold strJoinCheck at h; injection h with h2; subst h2; rfl
    | bool b => unfold strJoinCheck at h; injection h with h2; subst h2; rfl
    | num n => unfold strJoinCheck at h; injection h with h2; subst h2; rfl
    | arr xs => unfold strJoinCheck at h; injection h with h2; subst h2; rfl
    | obj fs => unfold strJoinCheck at h; injection h with h2; subst h2; rfl

theorem extract_id_caught (body : Json) (e : PyExc)
    (h : extract_id body = .error e) : isCaught e = true := by
  unfold extract_id at h
  split at h
  · rename_i e1 heq
    injection h with h2
    subst h2
    exact getItemStr_caught _ _ _ heq
  · rename_i d heq
    split at h
    · rename_i e1 heq2
      injection h with h2
      subst h2
      exact getItemIdx_caught _ _ _ heq2
    · rename_i d0 heq2
      split at h
      · rename_i e1 heq3
        injection h with h2
        subst h2
        exact getItemStr_caught _ _ _ heq3
      · rename_i node heq3
        exact getItemStr_caught _ _ _ h

theorem extract_title_caught (body : Json) (e : PyExc)
    (h : extract_title body = .error e) : isCaught e = true := by
  unfold extract_title at h
  split at h
  · rename_i e1 heq
    injection h with h2
    subst h2
    exact getItemStr_caught _ _ _ heq
  · rename_i d heq
    split at h
    · rename_i e1 heq2
      injection h with h2
      subst h2
      exact getItemIdx_caught _ _ _ heq2
    · rename_i d0 heq2
      split at h
      · rename_i e1 heq3
        injection h with h2
        subst h2
        exact getItemStr_caught _ _ _ heq3
      · rename_i node heq3
        exact getItemStr_caught _ _ _ h

theorem extract_genres_caught (body : Json) (e : PyExc)
    (h : extract_genres body = .error e) : isCaught e = true := by
  unfold extract_genres at h
  split at h
  · rename_i e1 heq
    injection h with h2
    subst h2
    exact getItemStr_caught _ _ _ heq
  · rename_i g heq
    split at h
    · rename_i e1 heq2
      injection h with h2
      subst h2
      exact pyIterate_caught _ _ heq2
    · rename_i items heq2
      split at h
      · rename_i e1 heq3
        injection h with h2
        subst h2
        exact getNames_caught _ _ heq3
      · rename_i names heq3
        split at h
        · rename_i e1 heq4
          injection h with h2
          subst h2
          exact strJoinCheck_caught _ _ heq4
        · rename_i strs heq4
          exact absurd h (by simp)

/-! Lemmas on the shape of each method call. -/

theorem get_anime_id_requests (q : AnimeDetailsQuery) (t : Transport)
    (name : String) : (q.get_anime_id t name).requests = [.search name] := by
  simp only [AnimeDetailsQuery.get_anime_id]
  repeat' split
  all_goals rfl

theorem get_anime_id_self (q : AnimeDetailsQuery) (t : Transport)
    (name : String) : (q.get_anime_id t name).self = q := by
  simp only [AnimeDetailsQuery.get_anime_id]
  repeat' split
  all_goals rfl

theorem get_anime_name_self (q : AnimeDetailsQuery) (t : Transport)
    (name : String) : (q.get_anime_name t name).self = q := by
  simp only [AnimeDetailsQuery.get_anime_name]
  repeat' split
  all_goals rfl

theorem get_anime_genres_self (q : AnimeDetailsQuery) (t : Transport)
    (name : String) : (q.get_anime_genres t name).self = q := by
  have hid := get_anime_id_self q t name
  simp only [AnimeDetailsQuery.get_anime_genres]
  repeat' split
  all_goals simp_all

theorem get_anime_id_result_not200 (q : AnimeDetailsQuery) (t : Transport)
    (name : String) (hs : (t (.search name) q.headers).status_code ≠ 200) :
    (q.get_anime_id t name).result = .ok none := by
  simp only [AnimeDetailsQuery.get_anime_id]
  rw [if_neg hs]

theorem get_anime_name_result_not200 (q : AnimeDetailsQuery) (t : Transport)
    (name : String) (hs : (t (.search name) q.headers).status_code ≠ 200) :
    (q.get_anime_name t name).result = .ok none := by
  simp only [AnimeDetailsQuery.get_anime_name]
  rw [if_neg hs]

theorem get_anime_id_result_malformed (q : AnimeDetailsQuery) (t : Transport)
    (name : String) (e : PyExc)
    (hs : (t (.search name) q.headers).status_code = 200)
    (hx : extract_id ((t (.search name) q.headers).body) = .error e) :
    (q.get_anime_id t name).result = .ok none := by
  simp [AnimeDetailsQuery.get_anime_id, hs, hx, extract_id_caught _ _ hx]

theorem get_anime_name_result_malformed (q : AnimeDetailsQuery) (t : Transport)
    (name : String) (e : PyExc)
    (hs : (t (.search name) q.headers).status_code = 200)
    (hx : extract_title ((t (.search name) q.headers).body) = .error e) :
    (q.get_anime_name t name).result = .ok none := by
  simp [AnimeDetailsQuery.get_anime_name, hs, hx, extract_title_caught _ _ hx]

theorem get_anime_id_result_ok (q : AnimeDetailsQuery) (t : Transport)
    (name : String) (v : Json)
    (hs : (t (.search name) q.headers).status_code = 200)
    (hx : extract_id ((t (.search name) q.headers).body) = .ok v) :
    (q.get_anime_id t name).result = .ok (some v) := by
  simp [AnimeDetailsQuery.get_anime_id, hs, hx]

theorem get_anime_genres_short_circuit (q : AnimeDetailsQuery) (t : Transport)
    (name : String) (hid : (q.get_anime_id t name).result = .ok none) :
    q.get_anime_genres t name =
      ⟨.ok none, (q.get_anime_id t name).requests,
        (q.get_anime_id t name).self⟩ := by
  simp only [AnimeDetailsQuery.get_anime_genres, hid]

theorem get_anime_genres_result_detail_ok (q : AnimeDetailsQuery)
    (t : Transport) (name : String) (animeId : Json) (s : String)
    (hid : (q.get_anime_id t name).result = .ok (some animeId))
    (hs : (t (.detail animeId) q.headers).status_code = 200)
    (hx : extract_genres ((t (.detail animeId) q.headers).body) = .ok s) :
    (q.get_anime_genres t name).result = .ok (some s) := by
  simp only [AnimeDetailsQuery.get_anime_genres, hid, get_anime_id_self]
  simp [hs, hx]

theorem get_anime_genres_result_detail_err (q : AnimeDetailsQuery)
    (t : Transport) (name : String) (animeId : Json) (e : PyExc)
    (hid : (q.get_anime_id t name).result = .ok (some animeId))
    (hs : (t (.detail animeId) q.headers).status_code = 200)
    (hx : extract_genres ((t (.detail animeId) q.headers).body) = .error e) :
    (q.get_anime_genres t name).result = .ok none := by
  simp only [AnimeDetailsQuery.get_anime_genres, hid, get_anime_id_self]
  simp [hs, hx, extract_genres_caught _ _ hx]

end AnimeQuery

open AnimeQuery Visualization

/-- C1: for every 200-status search or detail response whose payload has a
response-shape problem (the modelled extraction raises `KeyError`,
`IndexError` or `TypeError`), each of the three lookup operations returns the
absent sentinel: the call result is `.ok none`, an ordinary return, never an
escaped exception. -/
theorem c1_malformed_payload_absent (q : AnimeDetailsQuery) (t : Transport)
    (name : String) :
    (((t (.search name) q.headers).status_code = 200 →
        (∃ e, extract_id ((t (.search name) q.headers).body) = .error e) →
        (q.get_anime_id t name).result = .ok none) ∧
      ((t (.search name) q.headers).status_code = 200 →
        (∃ e, extract_title ((t (.search name) q.headers).body) = .error e) →
        (q.get_anime_name t name).result = .ok none) ∧
      (∀ animeId : Json,
        (q.get_anime_id t name).result = .ok (some animeId) →
        (t (.detail animeId) q.headers).status_code = 200 →
        (∃ e, extract_genres ((t (.detail animeId) q.headers).body) = .error e) →
        (q.get_anime_genres t name).result = .ok none)) := by
  refine ⟨?_, ?_, ?_⟩
  · rintro hs ⟨e, hx⟩
    exact get_anime_id_result_malformed q t name e hs hx
  · rintro hs ⟨e, hx⟩
    exact get_anime_name_result_malformed q t name e hs hx
  · rintro animeId hid hs ⟨e, hx⟩
    exact get_anime_genres_result_detail_err q t name animeId e hid hs hx

/-- Witness for C1 on mocked transports returning status 200 with a `null`
body for the search endpoint, resp. for the detail endpoint. -/
theorem c1_malformed_payload_absent_witness :
    ((AnimeDetailsQuery.init "cid").get_anime_id tMalformed "naruto").result
        = .ok none ∧
    ((AnimeDetailsQuery.init "cid").get_anime_name tMalformed "naruto").result
        = .ok none ∧
    ((AnimeDetailsQuery.init "cid").get_anime_genres tOkSearchBadDetail
        "naruto").result = .ok none :=
  ⟨(c1_malformed_payload_absent _ tMalformed "naruto").1 rfl ⟨.typeError, rfl⟩,
   (c1_malformed_payload_absent _ tMalformed "naruto").2.1 rfl
     ⟨.typeError, rfl⟩,
   (c1_malformed_payload_absent _ tOkSearchBadDetail "naruto").2.2 (.num 30)
     rfl rfl ⟨.typeError, rfl⟩⟩

/-- C2: for every transport response with a non-2xx status on the search
endpoint, all three lookup operations return the absent sentinel without
raising. -/
theorem c2_non2xx_absent (q : AnimeDetailsQuery) (t : Transport) (name : String)
    (hs : ¬(200 ≤ (t (.search name) q.headers).status_code ∧
        (t (.search name) q.headers).status_code < 300)) :
    (q.get_anime_id t name).result = .ok none ∧
    (q.get_anime_name t name).result = .ok none ∧
    (q.get_anime_genres t name).result = .ok none := by
  have hne : (t (.search name) q.headers).status_code ≠ 200 := by
    intro h
    exact hs (by omega)
  have h1 := get_anime_id_result_not200 q t name hne
  refine ⟨h1, get_anime_name_result_not200 q t name hne, ?_⟩
  rw [get_anime_genres_short_circuit q t name h1]

/-- Witness for C2 on a mocked transport returning status 404. -/
theorem c2_non2xx_absent_witness :
    ((AnimeDetailsQuery.init "cid").get_anime_id t404 "naruto").result
        = .ok none ∧
    ((AnimeDetailsQuery.init "cid").get_anime_name t404 "naruto").result
        = .ok none ∧
    ((AnimeDetailsQuery.init "cid").get_anime_genres t404 "naruto").result
        = .ok none :=
  c2_non2xx_absent _ t404 "naruto" (by decide)

/-- C3: whenever `get_anime_id` returns the absent sentinel,
`get_anime_genres` returns the absent sentinel immediately and the only
outbound request of the whole call is the single search request. -/
theorem c3_short_circuit (q : AnimeDetailsQuery) (t : Transport) (name : String)
    (hid : (q.get_anime_id t name).result = .ok none) :
    (q.get_anime_genres t name).result = .ok none ∧
    (q.get_anime_genres t name).requests = [.search name] ∧
    (q.get_anime_genres t name).requests.length = 1 := by
  rw [get_anime_genres_short_circuit q t name hid]
  exact ⟨rfl, by simp [get_anime_id_requests], by simp [get_anime_id_requests]⟩

/-- Witness for C3 on a mocked transport returning status 404. -/
theorem c3_short_circuit_witness :
    ((AnimeDetailsQuery.init "cid").get_anime_genres t404 "naruto").result
        = .ok none ∧
    ((AnimeDetailsQuery.init "cid").get_anime_genres t404 "naruto").requests
        = [.search "naruto"] ∧
    ((AnimeDetailsQuery.init "cid").get_anime_genres t404
        "naruto").requests.length = 1 :=
  c3_short_circuit _ t404 "naruto" rfl

/-- C4: a 200 search whose data array has at least one result yields that
first result's `node.id`; a 200 search with an empty data array yields the
absent sentinel. -/
theorem c4_first_result_id (q : AnimeDetailsQuery) (t : Transport)
    (name : String) :
    ((∀ (d0 : Json) (rest : List Json) (node v : Json),
        (t (.search name) q.headers).status_code = 200 →
        getItemStr ((t (.search name) q.headers).body) "data"
          = .ok (.arr (d0 :: rest)) →
        getItemStr d0 "node" = .ok node →
        getItemStr node "id" = .ok v →
        (q.get_anime_id t name).result = .ok (some v)) ∧
      ((t (.search name) q.headers).status_code = 200 →
        getItemStr ((t (.search name) q.headers).body) "data" = .ok (.arr []) →
        (q.get_anime_id t name).result = .ok none)) := by
  constructor
  · intro d0 rest node v hs h1 h2 h3
    apply get_anime_id_result_ok q t name v hs
    unfold extract_id
    rw [h1]
    simp only [getItemIdx, List.getElem?_cons_zero, h2, h3]
  · intro hs h1
    apply get_anime_id_result_malformed q t name .indexError hs
    unfold extract_id
    rw [h1]
    rfl

/-- Witness for C4 on mocked transports with one search result, resp. an
empty result array. -/
theorem c4_first_result_id_witness :
    ((AnimeDetailsQuery.init "cid").get_anime_id tOkFull "eva").result
        = .ok (some (.num 30)) ∧
    ((AnimeDetailsQuery.init "cid").get_anime_id tEmptyData "eva").result
        = .ok none :=
  ⟨(c4_first_result_id _ tOkFull "eva").1 _ [] _ (.num 30) rfl rfl rfl rfl,
   (c4_first_result_id _ tEmptyData "eva").2 rfl rfl⟩

/-- C5: a successful detail response whose genres list carries the names A, B,
C in that order makes `get_anime_genres` return the single
comma-and-space-delimited string. -/
theorem c5_join_genres (q : AnimeDetailsQuery) (t : Transport) (name : String)
    (animeId : Json) (A B C : String)
    (hid : (q.get_anime_id t name).result = .ok (some animeId))
    (hs : (t (.detail animeId) q.headers).status_code = 200)
    (hb : getItemStr ((t (.detail animeId) q.headers).body) "genres" =
      .ok (.arr [.obj [("name", .str A)], .obj [("name", .str B)],
        .obj [("name", .str C)]])) :
    (q.get_anime_genres t name).result
      = .ok (some (A ++ ", " ++ B ++ ", " ++ C)) := by
  apply get_anime_genres_result_detail_ok q t name animeId _ hid hs
  unfold extract_genres
  rw [hb]
  rfl

/-- Witness for C5 on a mocked transport whose detail payload has the genres
Action, Adventure, Comedy. -/
theorem c5_join_genres_witness :
    ((AnimeDetailsQuery.init "cid").get_anime_genres tOkFull "eva").result
      = .ok (some "Action, Adventure, Comedy") :=
  c5_join_genres _ tOkFull "eva" (.num 30) "Action" "Adventure" "Comedy"
    rfl rfl rfl

/-- C6: for a category column with value frequencies a:50 b:30 c:20 d:10 e:5
and limit 3, both bar charts keep a, b, c and append a synthetic Other bucket
of 15 after the kept set; the displayed total is 115, each labelled
percentage is its count over 115, and the percentages sum exactly to 100. -/
theorem c6_top3_other_bucket (column : List String)
    (h : value_counts column =
      [("a", 50), ("b", 30), ("c", 20), ("d", 10), ("e", 5)]) :
    plot_bar_table column 3 = [("a", 50), ("b", 30), ("c", 20), ("Other", 15)] ∧
    plot_horizontal_bar_table column 3 =
      [("a", 50), ("b", 30), ("c", 20), ("Other", 15)] ∧
    ((plot_bar_table column 3).map Prod.snd).sum = 115 ∧
    plot_bar_percents column 3 =
      [50 / 115 * 100, 30 / 115 * 100, 20 / 115 * 100, 15 / 115 * 100] ∧
    plot_horizontal_bar_percents column 3 =
      [50 / 115 * 100, 30 / 115 * 100, 20 / 115 * 100, 15 / 115 * 100] ∧
    (plot_bar_percents column 3).sum = 100 := by
  have h1 : plot_bar_table column 3
      = [("a", 50), ("b", 30), ("c", 20), ("Other", 15)] := by
    simp only [plot_bar_table, h]
    decide
  have h2 : plot_horizontal_bar_table column 3
      = [("a", 50), ("b", 30), ("c", 20), ("Other", 15)] := by
    simp only [plot_horizontal_bar_table, h]
    decide
  have h3 : plot_bar_percents column 3
      = [50 / 115 * 100, 30 / 115 * 100, 20 / 115 * 100, 15 / 115 * 100] := by
    simp only [plot_bar_percents, h1]
    norm_num
  have h4 : plot_horizontal_bar_percents column 3
      = [50 / 115 * 100, 30 / 115 * 100, 20 / 115 * 100, 15 / 115 * 100] := by
    simp only [plot_horizontal_bar_percents, h2]
    norm_num
  refine ⟨h1, h2, by rw [h1]; rfl, h3, h4, by rw [h3]; norm_num⟩

set_option maxRecDepth 100000 in
/-- Witness for C6 on a concrete column of 115 entries with the stated
frequencies. -/
theorem c6_top3_other_bucket_witness :
    plot_bar_table sampleColumn 3
        = [("a", 50), ("b", 30), ("c", 20), ("Other", 15)] ∧
    plot_horizontal_bar_table sampleColumn 3
        = [("a", 50), ("b", 30), ("c", 20), ("Other", 15)] ∧
    ((plot_bar_table sampleColumn 3).map Prod.snd).sum = 115 ∧
    plot_bar_percents sampleColumn 3
        = [50 / 115 * 100, 30 / 115 * 100, 20 / 115 * 100, 15 / 115 * 100] ∧
    plot_horizontal_bar_percents sampleColumn 3
        = [50 / 115 * 100, 30 / 115 * 100, 20 / 115 * 100, 15 / 115 * 100] ∧
    (plot_bar_percents sampleColumn 3).sum = 100 :=
  c6_top3_other_bucket sampleColumn (by decide)

/-- C7: for a column of 10 rows of which exactly 3 are missing,
`plot_donut_chart` computes the slices [3, 7], the missing count first, and
the fixed explode tuple pulls the first (missing) slice out. -/
theorem c7_donut_slices {α : Type} (column : List (Option α))
    (hlen : column.length = 10)
    (hmiss : (column.filter fun x => x.isNone).length = 3) :
    donut_sizes column = [3, 7] ∧
    donut_sizes column = [(column.filter fun x => x.isNone).length,
      column.length - (column.filter fun x => x.isNone).length] ∧
    donut_explode = [1 / 10, 0] := by
  refine ⟨?_, rfl, rfl⟩
  simp only [donut_sizes, hmiss, hlen]

/-- Witness for C7 on a concrete 10-row column with 3 missing entries. -/
theorem c7_donut_slices_witness :
    donut_sizes sampleDonutColumn = [3, 7] ∧
    donut_sizes sampleDonutColumn =
      [(sampleDonutColumn.filter fun x => x.isNone).length,
        sampleDonutColumn.length -
          (sampleDonutColumn.filter fun x => x.isNone).length] ∧
    donut_explode = [1 / 10, 0] :=
  c7_donut_slices sampleDonutColumn (by decide) (by decide)

/-- C8: `plot_correlation_matrix` on a dataset all of whose columns are
non-numeric computes the empty (0 by 0) correlation matrix; in this model the
function is total, so no fault is raised. -/
theorem c8_non_numeric_corr_empty (pearson : List ℚ → List ℚ → ℚ)
    (data : List Column) (h : ∀ c ∈ data, c.isNumeric = false) :
    plot_correlation_matrix_values pearson data = [] := by
  have hf : data.filter Column.isNumeric = [] := by
    rw [List.filter_eq_nil_iff]
    intro a ha
    simp [h a ha]
  simp [plot_correlation_matrix_values, corr, hf]

/-- Witness for C8 on a concrete dataset of two non-numeric columns. -/
theorem c8_non_numeric_corr_empty_witness :
    plot_correlation_matrix_values (fun _ _ => 0) sampleNonNumeric = [] :=
  c8_non_numeric_corr_empty (fun _ _ => 0) sampleNonNumeric (by decide)

/-- C9: the credential headers set at construction are exactly the
`X-MAL-CLIENT-ID` entry and each of the three lookup operations leaves the
headers of `self` unchanged. -/
theorem c9_headers_immutable (client_id : String) (t : Transport)
    (name : String) :
    (AnimeDetailsQuery.init client_id).headers
        = [("X-MAL-CLIENT-ID", client_id)] ∧
    ((AnimeDetailsQuery.init client_id).get_anime_id t name).self.headers
        = [("X-MAL-CLIENT-ID", client_id)] ∧
    ((AnimeDetailsQuery.init client_id).get_anime_name t name).self.headers
        = [("X-MAL-CLIENT-ID", client_id)] ∧
    ((AnimeDetailsQuery.init client_id).get_anime_genres t name).self.headers
        = [("X-MAL-CLIENT-ID", client_id)] := by
  refine ⟨rfl, ?_, ?_, ?_⟩
  · rw [get_anime_id_self]
    rfl
  · rw [get_anime_name_self]
    rfl
  · rw [get_anime_genres_self]
    rfl

/-- C10: a resolved identifier whose detail response succeeds with an empty
genres list makes `get_anime_genres` return the empty string, a present value
distinct from the absent sentinel. -/
theorem c10_empty_genres_empty_string (q : AnimeDetailsQuery) (t : Transport)
    (name : String) (animeId : Json)
    (hid : (q.get_anime_id t name).result = .ok (some animeId))
    (hs : (t (.detail animeId) q.headers).status_code = 200)
    (hb : getItemStr ((t (.detail animeId) q.headers).body) "genres"
        = .ok (.arr [])) :
    (q.get_anime_genres t name).result = .ok (some "") ∧
    (q.get_anime_genres t name).result ≠ .ok none := by
  have hx : extract_genres ((t (.detail animeId) q.headers).body) = .ok "" := by
    unfold extract_genres
    rw [hb]
    rfl
  have h := get_anime_genres_result_detail_ok q t name animeId "" hid hs hx
  refine ⟨h, ?_⟩
  rw [h]
  simp

/-- Witness for C10 on a mocked transport whose detail payload has an empty
genres list. -/
theorem c10_empty_genres_empty_string_witness :
    ((AnimeDetailsQuery.init "cid").get_anime_genres tEmptyGenres
        "eva").result = .ok (some "") ∧
    ((AnimeDetailsQuery.init "cid").get_anime_genres tEmptyGenres
        "eva").result ≠ .ok none :=
  c10_empty_genres_empty_string _ tEmptyGenres "eva" (.num 30) rfl rfl rfl
